import Mathlib

/-!
Verification of the time-management core (`TimeManagement` in namespace
`Stockfish`), shallowly embedded from the two near-duplicate source revisions
of `timeman.cpp` in this repository:

* `src/src/timeman.cpp` — embedded as `Timeman.TimeManagement.initA`;
* `src/unnamed/part_000` — embedded as `Timeman.TimeManagement.init`
  (this is the revision whose clamp policy the specification follows).

Modelling conventions:

* `TimePoint` (an `int64_t` millisecond count) is modelled as `Int`; machine
  overflow is out of scope of the claims checked here.
* C++ `int64_t` division truncates toward zero, so it is modelled by
  `Int.tdiv`.
* C++ `double` arithmetic on the decimal constants of the source is modelled
  by exact rational arithmetic on `ℚ`, and the conversion
  `TimePoint(x)` / `static_cast<int>(x)` (truncation toward zero) by `dtrunc`.
  Every concrete input used below keeps the evaluated quantities far from
  integer boundaries, so the exact-rational values and the IEEE-754 double
  values truncate identically there.
* The transcendental library calls `std::log10` and `std::pow` are not given
  by any exact formula; they are abstracted as an explicit function record
  `RealOps` over which all general theorems quantify.  Concrete evaluations
  use `sampleOps`, which agrees with the IEEE double functions at the
  arguments actually reached (`log10 1 = 0`, `log10 1000 = 3`).
* In `ℚ`, division by zero yields `0` where IEEE doubles yield an infinity.
  The only place this matters is the `movesToGo` divisor of the
  moves-to-go branch; the theorems below only inspect the divisor itself
  (`centiMTG`), never a quotient taken at a zero divisor.
-/

namespace Timeman

/-- Truncation toward zero of a rational, the behaviour of the C++
conversions `TimePoint(double)` and `static_cast<int>(double)` (for values in
range).  Since `q.den > 0`, `q.num.tdiv q.den` truncates toward zero. -/
def dtrunc (q : ℚ) : Int := q.num.tdiv q.den

/-- For a nonnegative rational, truncation toward zero is the floor. -/
theorem dtrunc_eq_floor {q : ℚ} (h : 0 ≤ q) : dtrunc q = ⌊q⌋ := by
  rw [dtrunc, Rat.floor_def]
  exact Int.tdiv_eq_ediv (Rat.num_nonneg.mpr h) (Int.ofNat_nonneg q.den)

/-- Truncation of a nonnegative rational is below the rational. -/
theorem dtrunc_le {q : ℚ} (h : 0 ≤ q) : (dtrunc q : ℚ) ≤ q := by
  rw [dtrunc_eq_floor h]; exact Int.floor_le q

/-- An integer lower bound on a rational is a lower bound on its truncation,
provided the rational is nonnegative. -/
theorem le_dtrunc {z : Int} {q : ℚ} (h : 0 ≤ q) (hz : (z : ℚ) ≤ q) :
    z ≤ dtrunc q := by
  rw [dtrunc_eq_floor h]; exact Int.le_floor.mpr hz

/-- Side to move (`Color` in the source). -/
inductive Color
  | white
  | black
deriving DecidableEq, Repr

/-- The slice of `Search::LimitsType` read and written by
`TimeManagement::init`: per-side remaining time and increment, the
moves-to-go count (0 = sudden death), the search start timestamp and the
writable node-rate field `npmsec`. -/
structure LimitsType where
  timeWhite : Int
  timeBlack : Int
  incWhite : Int
  incBlack : Int
  movestogo : Int
  startTime : Int
  npmsec : Int
deriving DecidableEq, Repr

/-- Reads `limits.time[us]`. -/
def LimitsType.time (l : LimitsType) : Color → Int
  | .white => l.timeWhite
  | .black => l.timeBlack

/-- Reads `limits.inc[us]`. -/
def LimitsType.inc (l : LimitsType) : Color → Int
  | .white => l.incWhite
  | .black => l.incBlack

/-- Writes `limits.time[us]`. -/
def LimitsType.setTime (l : LimitsType) : Color → Int → LimitsType
  | .white, v => { l with timeWhite := v }
  | .black, v => { l with timeBlack := v }

/-- Writes `limits.inc[us]`. -/
def LimitsType.setInc (l : LimitsType) : Color → Int → LimitsType
  | .white, v => { l with incWhite := v }
  | .black, v => { l with incBlack := v }

/-- The three configuration values `init` reads from the `OptionsMap`:
`options["nodestime"]`, `options["Move Overhead"]` and `options["Ponder"]`. -/
structure OptionsMap where
  nodestime : Int
  moveOverhead : Int
  ponder : Bool
deriving DecidableEq, Repr

/-- Abstraction of the transcendental double-precision library functions used
by the source (`std::log10` and `std::pow`).  General theorems hold for every
`RealOps`; concrete runs instantiate it. -/
structure RealOps where
  log10 : ℚ → ℚ
  rpow : ℚ → ℚ → ℚ

/-- Mutable state of the `TimeManagement` object. -/
structure TimeManagement where
  startTime : Int
  optimumTime : Int
  maximumTime : Int
  useNodesTime : Bool
  availableNodes : Int
deriving DecidableEq, Repr

/-- Accessor `TimeManagement::optimum`. -/
def TimeManagement.optimum (t : TimeManagement) : Int := t.optimumTime

/-- Accessor `TimeManagement::maximum`. -/
def TimeManagement.maximum (t : TimeManagement) : Int := t.maximumTime

/-- `TimeManagement::clear`: resets `availableNodes` to the `-1` sentinel. -/
def TimeManagement.clear (t : TimeManagement) : TimeManagement :=
  { t with availableNodes := -1 }

/-- `TimeManagement::advance_nodes_time`:
`availableNodes = std::max(int64_t(0), availableNodes - nodes)`. -/
def TimeManagement.advance_nodes_time (t : TimeManagement) (nodes : Int) :
    TimeManagement :=
  { t with availableNodes := max 0 (t.availableNodes - nodes) }

/-- Move-horizon estimate in centi-moves, common to both revisions:
`centiMTG = movestogo ? min(movestogo * 100, 5000) : 5051`, further capped by
`static_cast<int>(scaledTime * 5.051)` when `scaledTime < 1000`. -/
def centiMTGOf (movestogo scaledTime : Int) : Int :=
  let mtg : Int := if movestogo ≠ 0 then min (movestogo * 100) 5000 else 5051
  if scaledTime < 1000 then
    min mtg (dtrunc ((scaledTime : ℚ) * (5051 / 1000)))
  else mtg

/-- Horizon-adjusted budget, common to both revisions:
`timeLeft = max(1, time + (inc*(centiMTG-100) - moveOverhead*(200+centiMTG)) / 100)`
with C++ (truncating) `int64_t` division. -/
def timeLeftOf (time inc moveOverhead centiMTG : Int) : Int :=
  max 1 (time + (inc * (centiMTG - 100) - moveOverhead * (200 + centiMTG)).tdiv 100)

/-- Phase-dependent scale factors and the (possibly updated)
`originalTimeAdjust`, common to both revisions up to how `logTimeInSec` is
obtained (passed in by the caller).  Sudden-death branch
(`!limits.movestogo`): lazily assigns `originalTimeAdjust` while negative,
then derives `optScale`/`maxScale` from the logarithmic constants; otherwise
the moves-to-go branch divides by `movesToGo = centiMTG / 100.0`. -/
def scalesOf (ops : RealOps) (ply movestogo time timeLeft : Int)
    (centiMTG : Int) (logTimeInSec originalTimeAdjust : ℚ) : ℚ × ℚ × ℚ :=
  if movestogo = 0 then
    let ota : ℚ :=
      if originalTimeAdjust < 0 then
        3128 / 10000 * ops.log10 (timeLeft : ℚ) - 4354 / 10000
      else originalTimeAdjust
    let optConstant : ℚ :=
      min (32116 / 10000000 + 321123 / 1000000000 * logTimeInSec)
        (508017 / 100000000)
    let maxConstant : ℚ :=
      max (33977 / 10000 + 303950 / 100000 * logTimeInSec) (294761 / 100000)
    let timeLeftFactor : ℚ := (time : ℚ) / (timeLeft : ℚ)
    (min (121431 / 10000000 +
          ops.rpow ((ply : ℚ) + 294693 / 100000) (461073 / 1000000) * optConstant)
        (213035 / 1000000 * timeLeftFactor) * ota,
     min (667704 / 100000) (maxConstant + (ply : ℚ) / (119847 / 10000)),
     ota)
  else
    let movesToGo : ℚ := (centiMTG : ℚ) / 100
    (min ((88 / 100 + (ply : ℚ) / (1164 / 10)) / movesToGo)
        (88 / 100 * (time : ℚ) / (timeLeft : ℚ)),
     13 / 10 + 11 / 100 * movesToGo,
     originalTimeAdjust)

/-- Node-time emulation block, common to both revisions: when the node rate
`npmsec` is nonzero, seed `availableNodes = npmsec * limits.time[us]` while it
is the `-1` sentinel, then overwrite `limits.time[us]` with `availableNodes`,
scale `limits.inc[us]` by `npmsec` and record `npmsec` on `limits`. -/
def applyNodes (tm : TimeManagement) (limits : LimitsType) (us : Color)
    (npmsec : Int) : TimeManagement × LimitsType :=
  if npmsec != 0 then
    let tm2 :=
      if tm.availableNodes = -1 then
        { tm with availableNodes := npmsec * limits.time us }
      else tm
    let la := limits.setTime us tm2.availableNodes
    let lb := la.setInc us (la.inc us * npmsec)
    (tm2, { lb with npmsec := npmsec })
  else (tm, limits)

/-- Final optimum bound of the `part_000` revision
(`calculateBounds(timeLeft, 0.20)`):
`max(1, min(TimePoint(0.20 * time), TimePoint(optScale * timeLeft)))`. -/
def computeOptimum (time timeLeft : Int) (optScale : ℚ) : Int :=
  max 1 (min (dtrunc (20 / 100 * (time : ℚ))) (dtrunc (optScale * (timeLeft : ℚ))))

/-- Final maximum bound of the `part_000` revision:
`max(optimumTime, min(TimePoint(0.30 * time), TimePoint(min(0.825179 * time - moveOverhead, maxScale * optimumTime))))`. -/
def computeMaximum (time moveOverhead optimumTime : Int) (maxScale : ℚ) : Int :=
  max optimumTime
    (min (dtrunc (30 / 100 * (time : ℚ)))
      (dtrunc (min (825179 / 1000000 * (time : ℚ) - (moveOverhead : ℚ))
        (maxScale * (optimumTime : ℚ)))))

/-- Final assembly of the `part_000` revision: the two bounds followed by the
pondering adjustment `optimumTime += optimumTime / 4`. -/
def finalTimes (time moveOverhead timeLeft : Int) (optScale maxScale : ℚ)
    (ponder : Bool) : Int × Int :=
  let optimumTime := computeOptimum time timeLeft optScale
  let maximumTime := computeMaximum time moveOverhead optimumTime maxScale
  (if ponder then optimumTime + optimumTime.tdiv 4 else optimumTime, maximumTime)

/-- `TimeManagement::init` of the `src/unnamed/part_000` revision (the one the
specification's clamp policy follows), translated line by line.  The mutable
reference parameters (`limits`, `originalTimeAdjust`) are returned alongside
the updated object state. -/
def TimeManagement.init (ops : RealOps) (tm : TimeManagement)
    (limits : LimitsType) (us : Color) (ply : Int) (options : OptionsMap)
    (originalTimeAdjust : ℚ) : TimeManagement × LimitsType × ℚ :=
  let tm1 := { tm with startTime := limits.startTime }
  if limits.time us = 0 then
    ({ tm1 with useNodesTime := false }, limits, originalTimeAdjust)
  else
    let npmsec := options.nodestime
    let useNT : Bool := npmsec != 0
    let tm2 := { tm1 with useNodesTime := useNT }
    let p := applyNodes tm2 limits us npmsec
    let limits1 := p.2
    let scaleFactor : Int := if useNT then npmsec else 1
    let moveOverhead := options.moveOverhead
    let scaledTime := (limits1.time us).tdiv scaleFactor
    let centiMTG := centiMTGOf limits1.movestogo scaledTime
    let timeLeft := timeLeftOf (limits1.time us) (limits1.inc us) moveOverhead centiMTG
    let s := scalesOf ops ply limits1.movestogo (limits1.time us) timeLeft
      centiMTG (ops.log10 ((scaledTime : ℚ) / 1000)) originalTimeAdjust
    let f := finalTimes (limits1.time us) moveOverhead timeLeft s.1 s.2.1
      options.ponder
    ({ p.1 with optimumTime := f.1, maximumTime := f.2 }, limits1, s.2.2)

/-- `TimeManagement::init` of the `src/src/timeman.cpp` revision, which sets
`useNodesTime` before the zero-time early return, computes `logTimeInSec` as
`log10(scaledTime) - LOG_10_1000`, does not clamp `optimumTime`, subtracts 10
from the provisional maximum and hard-caps `maximumTime` at 20% of the
remaining time. -/
def TimeManagement.initA (ops : RealOps) (tm : TimeManagement)
    (limits : LimitsType) (us : Color) (ply : Int) (options : OptionsMap)
    (originalTimeAdjust : ℚ) : TimeManagement × LimitsType × ℚ :=
  let npmsec := options.nodestime
  let useNT : Bool := npmsec != 0
  let tm1 := { tm with startTime := limits.startTime, useNodesTime := useNT }
  if limits.time us = 0 then
    (tm1, limits, originalTimeAdjust)
  else
    let moveOverhead := options.moveOverhead
    let scaleFactor : Int := if useNT then npmsec else 1
    let p := applyNodes tm1 limits us npmsec
    let limits1 := p.2
    let scaledTime := (limits1.time us).tdiv scaleFactor
    let centiMTG := centiMTGOf limits1.movestogo scaledTime
    let timeLeft := timeLeftOf (limits1.time us) (limits1.inc us) moveOverhead centiMTG
    let s := scalesOf ops ply limits1.movestogo (limits1.time us) timeLeft
      centiMTG (ops.log10 (scaledTime : ℚ) - 3) originalTimeAdjust
    let optimumTime := dtrunc (s.1 * (timeLeft : ℚ))
    let maximumTime :=
      dtrunc (min (825179 / 1000000 * ((limits1.time us : Int) : ℚ) - (moveOverhead : ℚ))
        (s.2.1 * (optimumTime : ℚ))) - 10
    let maxCap := dtrunc (20 / 100 * ((limits1.time us : Int) : ℚ))
    let maximumTime1 := max 1 (min maximumTime maxCap)
    let optimumTime1 :=
      if options.ponder then optimumTime + optimumTime.tdiv 4 else optimumTime
    ({ p.1 with optimumTime := optimumTime1, maximumTime := maximumTime1 },
     limits1, s.2.2)

/-- Concrete stand-in for the IEEE double transcendentals, agreeing with them
at every argument reached by the concrete runs below: `log10 1 = 0` and
`log10 1000 = 3` hold exactly for the double `std::log10`; the `rpow` value
is never inspected by any property proved on a concrete run. -/
def sampleOps : RealOps where
  log10 q := if q = 1 then 0 else if q = 1000 then 3 else if q = 1 / 1000 then -3 else 0
  rpow _ _ := 1

/-- Neutral starting object state for concrete runs. -/
def tm0 : TimeManagement :=
  { startTime := 0, optimumTime := 0, maximumTime := 0, useNodesTime := false,
    availableNodes := -1 }

/-- Concrete limits: 100ms left, increment 230, 2 moves to go. -/
def lC1 : LimitsType :=
  { timeWhite := 100, timeBlack := 0, incWhite := 230, incBlack := 0,
    movestogo := 2, startTime := 0, npmsec := 0 }

/-- Concrete options: overhead 75, pondering on, node-time off. -/
def oC1 : OptionsMap := { nodestime := 0, moveOverhead := 75, ponder := true }

/-- Concrete limits: 1ms left, 1 move to go. -/
def lT1 : LimitsType :=
  { timeWhite := 1, timeBlack := 0, incWhite := 0, incBlack := 0,
    movestogo := 1, startTime := 0, npmsec := 0 }

/-- Concrete options: no overhead, pondering off, node-time off. -/
def oP0 : OptionsMap := { nodestime := 0, moveOverhead := 0, ponder := false }

/-- Concrete options: no overhead, pondering on, node-time off. -/
def oP1 : OptionsMap := { nodestime := 0, moveOverhead := 0, ponder := true }

/-- Concrete sudden-death limits with 1ms left. -/
def lS1 : LimitsType :=
  { timeWhite := 1, timeBlack := 0, incWhite := 0, incBlack := 0,
    movestogo := 0, startTime := 0, npmsec := 0 }

/-- Concrete sudden-death limits with 1000ms left. -/
def lS2 : LimitsType :=
  { timeWhite := 1000, timeBlack := 0, incWhite := 0, incBlack := 0,
    movestogo := 0, startTime := 0, npmsec := 0 }

/-- Concrete limits for the node-time trace: 1000ms left, 1 move to go. -/
def lN1 : LimitsType :=
  { timeWhite := 1000, timeBlack := 0, incWhite := 0, incBlack := 0,
    movestogo := 1, startTime := 0, npmsec := 0 }

/-- Concrete limits for the second node-time call: 500ms left, 1 move to go. -/
def lN2 : LimitsType :=
  { timeWhite := 500, timeBlack := 0, incWhite := 0, incBlack := 0,
    movestogo := 1, startTime := 0, npmsec := 0 }

/-- Concrete options enabling node-time emulation at 10 nodes per ms. -/
def oN : OptionsMap := { nodestime := 10, moveOverhead := 0, ponder := false }

/-- Concrete limits with zero remaining time for the side to move. -/
def lZ : LimitsType :=
  { timeWhite := 0, timeBlack := 5, incWhite := 0, incBlack := 0,
    movestogo := 0, startTime := 0, npmsec := 0 }

/-- Concrete options with a nonzero node rate. -/
def oZ : OptionsMap := { nodestime := 7, moveOverhead := 0, ponder := false }

/-- Concrete options: overhead 75, pondering off, node-time off. -/
def oC0 : OptionsMap := { nodestime := 0, moveOverhead := 75, ponder := false }

/-- Concrete object state holding a node budget of 7. -/
def tmA : TimeManagement :=
  { startTime := 0, optimumTime := 0, maximumTime := 0, useNodesTime := true,
    availableNodes := 7 }

/-- Limits record as rewritten by the node-time block of `init` (the identity
when the node rate is zero); used to state intermediate quantities of `init`
in theorems. -/
def effLimits (tm : TimeManagement) (limits : LimitsType) (us : Color)
    (options : OptionsMap) : LimitsType :=
  (applyNodes
    { tm with startTime := limits.startTime,
              useNodesTime := options.nodestime != 0 }
    limits us options.nodestime).2

/-- The `timeLeft` quantity computed by a non-early-returning `init` call. -/
def initTimeLeft (tm : TimeManagement) (limits : LimitsType) (us : Color)
    (options : OptionsMap) : Int :=
  let l1 := effLimits tm limits us options
  let scaledTime :=
    (l1.time us).tdiv (if options.nodestime != 0 then options.nodestime else 1)
  timeLeftOf (l1.time us) (l1.inc us) options.moveOverhead
    (centiMTGOf l1.movestogo scaledTime)

theorem setTime_movestogo (l : LimitsType) (c : Color) (v : Int) :
    (l.setTime c v).movestogo = l.movestogo := by cases c <;> rfl

theorem setInc_movestogo (l : LimitsType) (c : Color) (v : Int) :
    (l.setInc c v).movestogo = l.movestogo := by cases c <;> rfl

theorem setTime_time (l : LimitsType) (c : Color) (v : Int) :
    (l.setTime c v).time c = v := by cases c <;> rfl

theorem setInc_time (l : LimitsType) (c c2 : Color) (v : Int) :
    (l.setInc c v).time c2 = l.time c2 := by cases c <;> cases c2 <;> rfl

theorem setTime_inc (l : LimitsType) (c c2 : Color) (v : Int) :
    (l.setTime c v).inc c2 = l.inc c2 := by cases c <;> cases c2 <;> rfl

theorem one_le_computeOptimum (time timeLeft : Int) (optScale : ℚ) :
    1 ≤ computeOptimum time timeLeft optScale := le_max_left _ _

theorem computeOptimum_le_computeMaximum (time moveOverhead timeLeft : Int)
    (optScale maxScale : ℚ) :
    computeOptimum time timeLeft optScale ≤
      computeMaximum time moveOverhead (computeOptimum time timeLeft optScale)
        maxScale := le_max_left _ _

theorem computeOptimum_le_cap {time : Int} (timeLeft : Int) (optScale : ℚ)
    (ht : 5 ≤ time) :
    ((computeOptimum time timeLeft optScale : Int) : ℚ) ≤ 20 / 100 * (time : ℚ) := by
  have htq : (5 : ℚ) ≤ (time : ℚ) := by exact_mod_cast ht
  have h0 : (0 : ℚ) ≤ 20 / 100 * (time : ℚ) := by linarith
  have h1 : (1 : ℚ) ≤ 20 / 100 * (time : ℚ) := by linarith
  have hA : (1 : Int) ≤ dtrunc (20 / 100 * (time : ℚ)) := le_dtrunc h0 (by exact_mod_cast h1)
  have hle : computeOptimum time timeLeft optScale ≤ dtrunc (20 / 100 * (time : ℚ)) :=
    max_le hA (min_le_left _ _)
  calc ((computeOptimum time timeLeft optScale : Int) : ℚ)
      ≤ ((dtrunc (20 / 100 * (time : ℚ)) : Int) : ℚ) := by exact_mod_cast hle
    _ ≤ 20 / 100 * (time : ℚ) := dtrunc_le h0

theorem computeMaximum_le_cap {time optimumTime : Int} (moveOverhead : Int)
    (maxScale : ℚ) (ht : 5 ≤ time)
    (hopt : ((optimumTime : Int) : ℚ) ≤ 20 / 100 * (time : ℚ)) :
    ((computeMaximum time moveOverhead optimumTime maxScale : Int) : ℚ) ≤
      30 / 100 * (time : ℚ) := by
  have htq : (5 : ℚ) ≤ (time : ℚ) := by exact_mod_cast ht
  have h0 : (0 : ℚ) ≤ 30 / 100 * (time : ℚ) := by linarith
  have hoq : ((optimumTime : Int) : ℚ) ≤ 30 / 100 * (time : ℚ) := by linarith
  have hB : optimumTime ≤ dtrunc (30 / 100 * (time : ℚ)) := le_dtrunc h0 hoq
  have hle : computeMaximum time moveOverhead optimumTime maxScale ≤
      dtrunc (30 / 100 * (time : ℚ)) := max_le hB (min_le_left _ _)
  calc ((computeMaximum time moveOverhead optimumTime maxScale : Int) : ℚ)
      ≤ ((dtrunc (30 / 100 * (time : ℚ)) : Int) : ℚ) := by exact_mod_cast hle
    _ ≤ 30 / 100 * (time : ℚ) := dtrunc_le h0

theorem finalTimes_false_bounds (time moveOverhead timeLeft : Int)
    (optScale maxScale : ℚ) :
    1 ≤ (finalTimes time moveOverhead timeLeft optScale maxScale false).1 ∧
    (finalTimes time moveOverhead timeLeft optScale maxScale false).1 ≤
      (finalTimes time moveOverhead timeLeft optScale maxScale false).2 :=
  ⟨one_le_computeOptimum _ _ _, computeOptimum_le_computeMaximum _ _ _ _ _⟩

theorem finalTimes_false_caps {time : Int} (moveOverhead timeLeft : Int)
    (optScale maxScale : ℚ) (ht : 5 ≤ time) :
    (((finalTimes time moveOverhead timeLeft optScale maxScale false).1 : Int) : ℚ) ≤
      20 / 100 * (time : ℚ) ∧
    (((finalTimes time moveOverhead timeLeft optScale maxScale false).2 : Int) : ℚ) ≤
      30 / 100 * (time : ℚ) :=
  ⟨computeOptimum_le_cap _ _ ht,
   computeMaximum_le_cap _ _ ht (computeOptimum_le_cap _ _ ht)⟩

theorem finalTimes_ponder_shift (time moveOverhead timeLeft : Int)
    (optScale maxScale : ℚ) :
    (finalTimes time moveOverhead timeLeft optScale maxScale true).1 =
      (finalTimes time moveOverhead timeLeft optScale maxScale false).1 +
      ((finalTimes time moveOverhead timeLeft optScale maxScale false).1).tdiv 4 ∧
    (finalTimes time moveOverhead timeLeft optScale maxScale true).2 =
      (finalTimes time moveOverhead timeLeft optScale maxScale false).2 :=
  ⟨rfl, rfl⟩

theorem lt_add_tdiv_four {x : Int} (hx : 4 ≤ x) : x < x + x.tdiv 4 := by
  have h0 : (0 : Int) ≤ x := by omega
  have : x.tdiv 4 = x / 4 := Int.tdiv_eq_ediv h0 (by norm_num)
  omega

theorem applyNodes_movestogo (tm : TimeManagement) (l : LimitsType) (us : Color)
    (n : Int) : (applyNodes tm l us n).2.movestogo = l.movestogo := by
  unfold applyNodes
  split
  · dsimp only
    rw [setInc_movestogo, setTime_movestogo]
  · rfl

theorem applyNodes_zero (tm : TimeManagement) (l : LimitsType) (us : Color) :
    applyNodes tm l us 0 = (tm, l) := rfl

theorem applyNodes_seed (tm : TimeManagement) (l : LimitsType) (us : Color)
    {n : Int} (hn : n ≠ 0) (ha : tm.availableNodes = -1) :
    (applyNodes tm l us n).1.availableNodes = n * l.time us := by
  unfold applyNodes
  rw [if_pos (bne_iff_ne.mpr hn), if_pos ha]

theorem scalesOf_ota_of_nonneg (ops : RealOps) (ply m t tl c : Int)
    (lts : ℚ) {ota : ℚ} (h0 : 0 ≤ ota) :
    (scalesOf ops ply m t tl c lts ota).2.2 = ota := by
  unfold scalesOf
  split
  · dsimp only
    rw [if_neg (not_lt.mpr h0)]
  · rfl

theorem scalesOf_ota_of_mtg (ops : RealOps) (ply : Int) {m : Int}
    (t tl c : Int) (lts ota : ℚ) (hm : m ≠ 0) :
    (scalesOf ops ply m t tl c lts ota).2.2 = ota := by
  unfold scalesOf
  rw [if_neg hm]

theorem scalesOf_ota_of_neg (ops : RealOps) (ply : Int) {m : Int}
    (t tl c : Int) (lts : ℚ) {ota : ℚ} (hm : m = 0) (hlt : ota < 0) :
    (scalesOf ops ply m t tl c lts ota).2.2 =
      3128 / 10000 * ops.log10 (tl : ℚ) - 4354 / 10000 := by
  subst hm
  unfold scalesOf
  rw [if_pos rfl]
  dsimp only
  rw [if_pos hlt]

/-- C1 (amended): after every `init` call with nonzero remaining time and
pondering disabled — equivalently, measuring before the pondering
adjustment — the stored bounds satisfy `maximum() ≥ optimum() ≥ 1`.  (The
original claim extends this past the pondering adjustment, which the
counterexample refutes.) -/
theorem init_max_ge_opt_ge_one_no_ponder (ops : RealOps) (tm : TimeManagement)
    (limits : LimitsType) (us : Color) (ply : Int) (options : OptionsMap)
    (ota : ℚ) (h : limits.time us ≠ 0) (hp : options.ponder = false) :
    1 ≤ (TimeManagement.init ops tm limits us ply options ota).1.optimumTime ∧
    (TimeManagement.init ops tm limits us ply options ota).1.optimumTime ≤
      (TimeManagement.init ops tm limits us ply options ota).1.maximumTime := by
  simp only [TimeManagement.init, if_neg h, hp]
  exact ⟨(finalTimes_false_bounds _ _ _ _ _).1, (finalTimes_false_bounds _ _ _ _ _).2⟩

/-- C1 witness: the amended invariant holds at a concrete call with 100ms
left, increment 230, 2 moves to go, overhead 75, pondering off. -/
theorem init_max_ge_opt_ge_one_no_ponder_witness :
    lC1.time .white ≠ 0 ∧ oC0.ponder = false ∧
    (1 ≤ (TimeManagement.init sampleOps tm0 lC1 .white 0 oC0 1).1.optimumTime ∧
     (TimeManagement.init sampleOps tm0 lC1 .white 0 oC0 1).1.optimumTime ≤
       (TimeManagement.init sampleOps tm0 lC1 .white 0 oC0 1).1.maximumTime) :=
  ⟨by decide, rfl,
   init_max_ge_opt_ge_one_no_ponder sampleOps tm0 lC1 .white 0 oC0 1
     (by decide) rfl⟩

/-- C1 counterexample: with pondering enabled (100ms left, increment 230,
2 moves to go, overhead 75) the pondering adjustment lifts `optimum()` to 16
while `maximum()` stays at 13, violating `maximum() ≥ optimum()`. -/
theorem init_ponder_exceeds_maximum_cex :
    (TimeManagement.init sampleOps tm0 lC1 .white 0 oC1 1).1.optimumTime = 16 ∧
    (TimeManagement.init sampleOps tm0 lC1 .white 0 oC1 1).1.maximumTime = 13 ∧
    (TimeManagement.init sampleOps tm0 lC1 .white 0 oC1 1).1.maximumTime <
      (TimeManagement.init sampleOps tm0 lC1 .white 0 oC1 1).1.optimumTime := by
  with_unfolding_all decide

/-- C2 (amended): after every `init` call with nonzero remaining time,
pondering disabled and remaining time (as stored back into the limits record)
at least 5, `optimum() ≤ 0.20 × remainingTime` and
`maximum() ≤ 0.30 × remainingTime`.  (For remaining time below 5 the 1-unit
floor exceeds the 20%/30% caps; see the counterexample.) -/
theorem init_opt_max_caps (ops : RealOps) (tm : TimeManagement)
    (limits : LimitsType) (us : Color) (ply : Int) (options : OptionsMap)
    (ota : ℚ) (h : limits.time us ≠ 0) (hp : options.ponder = false)
    (ht : 5 ≤ ((TimeManagement.init ops tm limits us ply options ota).2.1).time us) :
    (((TimeManagement.init ops tm limits us ply options ota).1.optimumTime : Int) : ℚ) ≤
      20 / 100 *
        ((((TimeManagement.init ops tm limits us ply options ota).2.1).time us : Int) : ℚ) ∧
    (((TimeManagement.init ops tm limits us ply options ota).1.maximumTime : Int) : ℚ) ≤
      30 / 100 *
        ((((TimeManagement.init ops tm limits us ply options ota).2.1).time us : Int) : ℚ) := by
  simp only [TimeManagement.init, if_neg h, hp] at ht ⊢
  exact ⟨(finalTimes_false_caps _ _ _ _ ht).1, (finalTimes_false_caps _ _ _ _ ht).2⟩

/-- C2 witness: the caps hold at a concrete call with 100ms left, increment
230, 2 moves to go, overhead 75, pondering off (optimum 13 ≤ 20, maximum
13 ≤ 30). -/
theorem init_opt_max_caps_witness :
    lC1.time .white ≠ 0 ∧ oC0.ponder = false ∧
    5 ≤ ((TimeManagement.init sampleOps tm0 lC1 .white 0 oC0 1).2.1).time .white ∧
    ((((TimeManagement.init sampleOps tm0 lC1 .white 0 oC0 1).1.optimumTime : Int) : ℚ) ≤
      20 / 100 *
        ((((TimeManagement.init sampleOps tm0 lC1 .white 0 oC0 1).2.1).time .white : Int) : ℚ) ∧
     (((TimeManagement.init sampleOps tm0 lC1 .white 0 oC0 1).1.maximumTime : Int) : ℚ) ≤
      30 / 100 *
        ((((TimeManagement.init sampleOps tm0 lC1 .white 0 oC0 1).2.1).time .white : Int) : ℚ)) :=
  ⟨by decide, rfl, by with_unfolding_all decide,
   init_opt_max_caps sampleOps tm0 lC1 .white 0 oC0 1 (by decide) rfl
     (by with_unfolding_all decide)⟩

/-- C2 counterexample: with 1ms remaining (1 move to go, no overhead,
pondering off) the floor at one time unit makes `optimum() = 1`, exceeding
`0.20 × remainingTime = 0.2`; likewise `maximum() = 1 > 0.3`. -/
theorem init_cap_fails_at_tiny_time_cex :
    lT1.time .white ≠ 0 ∧
    ((TimeManagement.init sampleOps tm0 lT1 .white 0 oP0 1).2.1).time .white = 1 ∧
    ¬ ((((TimeManagement.init sampleOps tm0 lT1 .white 0 oP0 1).1.optimumTime : Int) : ℚ) ≤
        20 / 100 *
          ((((TimeManagement.init sampleOps tm0 lT1 .white 0 oP0 1).2.1).time .white : Int) : ℚ)) := by
  with_unfolding_all decide

/-- C3 (amended): in the `part_000` revision, a call with zero remaining time
for the side to move returns immediately with `useNodesTime = false`, leaving
`optimumTime`, `maximumTime`, `availableNodes`, the limits record and
`originalTimeAdjust` unchanged.  (In the `timeman.cpp` revision the early
return instead leaves `useNodesTime` equal to `nodestime ≠ 0`; see the
counterexample.) -/
theorem init_zero_time_frame (ops : RealOps) (tm : TimeManagement)
    (limits : LimitsType) (us : Color) (ply : Int) (options : OptionsMap)
    (ota : ℚ) (h : limits.time us = 0) :
    (TimeManagement.init ops tm limits us ply options ota).1.useNodesTime = false ∧
    (TimeManagement.init ops tm limits us ply options ota).1.optimumTime =
      tm.optimumTime ∧
    (TimeManagement.init ops tm limits us ply options ota).1.maximumTime =
      tm.maximumTime ∧
    (TimeManagement.init ops tm limits us ply options ota).1.availableNodes =
      tm.availableNodes ∧
    (TimeManagement.init ops tm limits us ply options ota).2.1 = limits ∧
    (TimeManagement.init ops tm limits us ply options ota).2.2 = ota := by
  simp [TimeManagement.init, if_pos h]

/-- C3 witness: the zero-time frame property at a concrete call with zero
remaining time and node rate 7. -/
theorem init_zero_time_frame_witness :
    lZ.time .white = 0 ∧
    ((TimeManagement.init sampleOps tm0 lZ .white 0 oZ 1).1.useNodesTime = false ∧
     (TimeManagement.init sampleOps tm0 lZ .white 0 oZ 1).1.optimumTime =
       tm0.optimumTime ∧
     (TimeManagement.init sampleOps tm0 lZ .white 0 oZ 1).1.maximumTime =
       tm0.maximumTime ∧
     (TimeManagement.init sampleOps tm0 lZ .white 0 oZ 1).1.availableNodes =
       tm0.availableNodes ∧
     (TimeManagement.init sampleOps tm0 lZ .white 0 oZ 1).2.1 = lZ ∧
     (TimeManagement.init sampleOps tm0 lZ .white 0 oZ 1).2.2 = 1) :=
  ⟨rfl, init_zero_time_frame sampleOps tm0 lZ .white 0 oZ 1 rfl⟩

/-- C3 counterexample: in the `timeman.cpp` revision (`initA`), a call with
zero remaining time and nonzero `nodestime` returns with
`useNodesTime = true`, not `false` as claimed. -/
theorem initA_zero_time_useNodesTime_cex :
    lZ.time .white = 0 ∧ oZ.nodestime ≠ 0 ∧
    (TimeManagement.initA sampleOps tm0 lZ .white 0 oZ 1).1.useNodesTime = true := by
  decide

/-- C4 (confirmed): under node-time emulation (nonzero node rate), the first
`init` after `clear()` seeds `availableNodes = rate × remainingTime`; every
`advance_nodes_time n` with `0 ≤ n <` the budget reduces the budget by
exactly `n`, with `n ≥` the budget sets it to `0`, and the result is never
negative. -/
theorem nodes_time_budget_lifecycle (ops : RealOps) (tm : TimeManagement)
    (limits : LimitsType) (us : Color) (ply : Int) (options : OptionsMap)
    (ota : ℚ) (t2 : TimeManagement) (n : Int)
    (hnp : options.nodestime ≠ 0) (ht : limits.time us ≠ 0) :
    (TimeManagement.init ops (tm.clear) limits us ply options ota).1.availableNodes =
      options.nodestime * limits.time us ∧
    (0 ≤ n → n < t2.availableNodes →
      (t2.advance_nodes_time n).availableNodes = t2.availableNodes - n) ∧
    (t2.availableNodes ≤ n → (t2.advance_nodes_time n).availableNodes = 0) ∧
    0 ≤ (t2.advance_nodes_time n).availableNodes := by
  refine ⟨?_, ?_, ?_, ?_⟩
  · simp only [TimeManagement.init, if_neg ht]
    exact applyNodes_seed _ _ _ hnp rfl
  · intro h0 hlt
    exact max_eq_right (by omega)
  · intro hge
    exact max_eq_left (by omega)
  · exact le_max_left _ _

/-- C4 witness: at node rate 10 with 1000ms remaining the seed is 10000, and
`advance_nodes_time 5` on a budget of 7 leaves 2. -/
theorem nodes_time_budget_lifecycle_witness :
    oN.nodestime ≠ 0 ∧ lN1.time .white ≠ 0 ∧
    ((TimeManagement.init sampleOps (tm0.clear) lN1 .white 0 oN 1).1.availableNodes =
       oN.nodestime * lN1.time .white ∧
     (0 ≤ (5 : Int) → (5 : Int) < tmA.availableNodes →
       (tmA.advance_nodes_time 5).availableNodes = tmA.availableNodes - 5) ∧
     (tmA.availableNodes ≤ (5 : Int) →
       (tmA.advance_nodes_time 5).availableNodes = 0) ∧
     0 ≤ (tmA.advance_nodes_time 5).availableNodes) :=
  ⟨by decide, by decide,
   nodes_time_budget_lifecycle sampleOps tm0 lN1 .white 0 oN 1 tmA 5
     (by decide) (by decide)⟩

/-- C5 (amended): for every `init` call with nonzero remaining time, enabling
pondering leaves `maximum()` unchanged and replaces `optimum()` by
`optimum() + optimum() / 4` in integer arithmetic — an increase of exactly
25% rounded down, strict only when the unpondered optimum is at least 4.
(The original "strictly greater by exactly 25%" fails at small optima, and
`maximum()` is not lifted to the inflated optimum; see the
counterexamples for C5 and C1.) -/
theorem init_ponder_relation (ops : RealOps) (tm : TimeManagement)
    (limits : LimitsType) (us : Color) (ply : Int) (options : OptionsMap)
    (ota : ℚ) (h : limits.time us ≠ 0) :
    (TimeManagement.init ops tm limits us ply { options with ponder := true }
        ota).1.optimumTime =
      (TimeManagement.init ops tm limits us ply { options with ponder := false }
          ota).1.optimumTime +
        ((TimeManagement.init ops tm limits us ply { options with ponder := false }
            ota).1.optimumTime).tdiv 4 ∧
    (TimeManagement.init ops tm limits us ply { options with ponder := true }
        ota).1.maximumTime =
      (TimeManagement.init ops tm limits us ply { options with ponder := false }
          ota).1.maximumTime ∧
    (4 ≤ (TimeManagement.init ops tm limits us ply { options with ponder := false }
        ota).1.optimumTime →
      (TimeManagement.init ops tm limits us ply { options with ponder := false }
          ota).1.optimumTime <
        (TimeManagement.init ops tm limits us ply { options with ponder := true }
            ota).1.optimumTime) := by
  have e :
      (TimeManagement.init ops tm limits us ply { options with ponder := true }
          ota).1.optimumTime =
        (TimeManagement.init ops tm limits us ply { options with ponder := false }
            ota).1.optimumTime +
          ((TimeManagement.init ops tm limits us ply { options with ponder := false }
              ota).1.optimumTime).tdiv 4 ∧
      (TimeManagement.init ops tm limits us ply { options with ponder := true }
          ota).1.maximumTime =
        (TimeManagement.init ops tm limits us ply { options with ponder := false }
            ota).1.maximumTime := by
    simp only [TimeManagement.init, if_neg h]
    exact finalTimes_ponder_shift _ _ _ _ _
  refine ⟨e.1, e.2, ?_⟩
  intro h4
  rw [e.1]
  exact lt_add_tdiv_four h4

/-- C5 witness: at a concrete call (100ms left, increment 230, 2 moves to go,
overhead 75) the unpondered optimum is 13 and pondering lifts it to 16 while
maximum stays 13. -/
theorem init_ponder_relation_witness :
    lC1.time .white ≠ 0 ∧
    ((TimeManagement.init sampleOps tm0 lC1 .white 0 { oC0 with ponder := true }
        1).1.optimumTime =
      (TimeManagement.init sampleOps tm0 lC1 .white 0 { oC0 with ponder := false }
          1).1.optimumTime +
        ((TimeManagement.init sampleOps tm0 lC1 .white 0 { oC0 with ponder := false }
            1).1.optimumTime).tdiv 4 ∧
     (TimeManagement.init sampleOps tm0 lC1 .white 0 { oC0 with ponder := true }
        1).1.maximumTime =
      (TimeManagement.init sampleOps tm0 lC1 .white 0 { oC0 with ponder := false }
          1).1.maximumTime ∧
     (4 ≤ (TimeManagement.init sampleOps tm0 lC1 .white 0 { oC0 with ponder := false }
         1).1.optimumTime →
       (TimeManagement.init sampleOps tm0 lC1 .white 0 { oC0 with ponder := false }
           1).1.optimumTime <
         (TimeManagement.init sampleOps tm0 lC1 .white 0 { oC0 with ponder := true }
             1).1.optimumTime)) :=
  ⟨by decide, init_ponder_relation sampleOps tm0 lC1 .white 0 oC0 1 (by decide)⟩

/-- C5 counterexample: with 1ms remaining (1 move to go, no overhead) the
optimum is 1 both with and without pondering, so pondering does not strictly
increase `optimum()`. -/
theorem init_ponder_not_strict_cex :
    lT1.time .white ≠ 0 ∧
    (TimeManagement.init sampleOps tm0 lT1 .white 0 oP1 1).1.optimumTime =
      (TimeManagement.init sampleOps tm0 lT1 .white 0 oP0 1).1.optimumTime ∧
    (TimeManagement.init sampleOps tm0 lT1 .white 0 oP0 1).1.optimumTime = 1 := by
  with_unfolding_all decide

/-- C6 (amended): `originalTimeAdjust` is left unchanged by any `init` call
once its stored value is nonnegative, by any moves-to-go call and by any
zero-time call; on a sudden-death call with nonzero time it is (re)assigned
`0.3128 × log10(timeLeft) − 0.4354` whenever the stored value is still
negative.  (Because the assigned value itself can be negative — whenever
`timeLeft ≤ 24` — a later sudden-death call can recompute it, so "computed at
most once per game" fails; see the counterexample.) -/
theorem originalTimeAdjust_update_policy (ops : RealOps) (tm : TimeManagement)
    (limits : LimitsType) (us : Color) (ply : Int) (options : OptionsMap)
    (ota : ℚ) :
    (0 ≤ ota → (TimeManagement.init ops tm limits us ply options ota).2.2 = ota) ∧
    (limits.movestogo ≠ 0 →
      (TimeManagement.init ops tm limits us ply options ota).2.2 = ota) ∧
    (limits.time us = 0 →
      (TimeManagement.init ops tm limits us ply options ota).2.2 = ota) ∧
    (limits.time us ≠ 0 → limits.movestogo = 0 → ota < 0 →
      (TimeManagement.init ops tm limits us ply options ota).2.2 =
        3128 / 10000 *
          ops.log10 ((initTimeLeft tm limits us options : Int) : ℚ) -
        4354 / 10000) := by
  refine ⟨?_, ?_, ?_, ?_⟩
  · intro h0
    by_cases h : limits.time us = 0
    · simp only [TimeManagement.init, if_pos h]
    · simp only [TimeManagement.init, if_neg h]
      exact scalesOf_ota_of_nonneg _ _ _ _ _ _ _ h0
  · intro hm
    by_cases h : limits.time us = 0
    · simp only [TimeManagement.init, if_pos h]
    · simp only [TimeManagement.init, if_neg h, applyNodes_movestogo]
      exact scalesOf_ota_of_mtg _ _ _ _ _ _ _ hm
  · intro h
    simp only [TimeManagement.init, if_pos h]
  · intro h hm hlt
    simp only [TimeManagement.init, if_neg h]
    exact scalesOf_ota_of_neg _ _ _ _ _ _
      (by rw [applyNodes_movestogo]; exact hm) hlt

/-- C6 witness: a sudden-death call with 1000ms left and negative stored
calibration assigns `0.3128 × log10(1000) − 0.4354`. -/
theorem originalTimeAdjust_update_policy_witness :
    lS2.time .white ≠ 0 ∧ lS2.movestogo = 0 ∧ ((-1 : ℚ) < 0) ∧
    (TimeManagement.init sampleOps tm0 lS2 .white 0 oP0 (-1)).2.2 =
      3128 / 10000 *
        sampleOps.log10 ((initTimeLeft tm0 lS2 .white oP0 : Int) : ℚ) -
      4354 / 10000 :=
  ⟨by decide, rfl, by norm_num,
   (originalTimeAdjust_update_policy sampleOps tm0 lS2 .white 0 oP0 (-1)).2.2.2
     (by decide) rfl (by norm_num)⟩

set_option maxRecDepth 4000

/-- C6 counterexample: starting from the `-1` sentinel, a sudden-death call
with 1ms left assigns the negative value `−0.4354`; the next sudden-death
call (1000ms left) therefore recomputes it to `0.503 ≠ −0.4354`, so the
calibration scalar is not computed at most once per game. -/
theorem originalTimeAdjust_recomputed_cex :
    (TimeManagement.init sampleOps tm0 lS1 .white 0 oP0 (-1)).2.2 < 0 ∧
    (TimeManagement.init sampleOps
        (TimeManagement.init sampleOps tm0 lS1 .white 0 oP0 (-1)).1 lS2 .white 0
        oP0
        (TimeManagement.init sampleOps tm0 lS1 .white 0 oP0 (-1)).2.2).2.2 ≠
      (TimeManagement.init sampleOps tm0 lS1 .white 0 oP0 (-1)).2.2 := by
  with_unfolding_all decide

/-- C7 (amended): `timeLeft` is floored at 1 before any use as a divisor, and
the move horizon `centiMTG` is at least 5 (hence the divisor
`movesToGo = centiMTG / 100` is positive) whenever `scaledTime ≥ 1` — in
particular whenever node-time emulation is off.  (Under node-time emulation
`scaledTime` can reach 0 once the node budget drops below the rate, making
`centiMTG = 0` and the `movesToGo` divisor zero; see the counterexample.) -/
theorem division_guards (time inc moveOverhead c m s : Int)
    (hm : 0 ≤ m) (hs : 1 ≤ s) :
    1 ≤ timeLeftOf time inc moveOverhead c ∧ 5 ≤ centiMTGOf m s := by
  constructor
  · exact le_max_left _ _
  · unfold centiMTGOf
    have hbase : (5 : Int) ≤ (if m ≠ 0 then min (m * 100) 5000 else 5051) := by
      split
      · next hm0 => exact le_min (by omega) (by norm_num)
      · norm_num
    dsimp only
    split
    · refine le_min hbase (le_dtrunc ?_ ?_)
      · have : (0 : ℚ) ≤ (s : ℚ) := by exact_mod_cast (by omega : (0 : Int) ≤ s)
        positivity
      · have h1 : (1 : ℚ) ≤ (s : ℚ) := by exact_mod_cast hs
        nlinarith
    · exact hbase

/-- C7 witness: the guards hold at a concrete non-node-time input
(`timeLeft` arguments 1000/0/10/5051, sudden death, `scaledTime = 1000`). -/
theorem division_guards_witness :
    (0 : Int) ≤ 0 ∧ (1 : Int) ≤ 1000 ∧
    (1 ≤ timeLeftOf 1000 0 10 5051 ∧ 5 ≤ centiMTGOf 0 1000) :=
  ⟨by decide, by decide, division_guards 1000 0 10 5051 0 1000 (by decide) (by decide)⟩

/-- C7 counterexample: a reachable node-time trace (rate 10, seed at 1000ms,
9999 nodes consumed, then an `init` with 500ms on the clock) rewrites the
remaining time to the 1-node budget, so `scaledTime = 1 / 10 = 0` and
`centiMTG = 0`: the `movesToGo` divisor is not bounded away from zero. -/
theorem centiMTG_zero_reachable_cex :
    (TimeManagement.init sampleOps (tm0.clear) lN1 .white 0 oN 1).1.availableNodes = 10000 ∧
    ((TimeManagement.init sampleOps (tm0.clear) lN1 .white 0 oN
        1).1.advance_nodes_time 9999).availableNodes = 1 ∧
    lN2.time .white ≠ 0 ∧
    ((TimeManagement.init sampleOps
        ((TimeManagement.init sampleOps (tm0.clear) lN1 .white 0 oN
            1).1.advance_nodes_time 9999) lN2 .white 0 oN 1).2.1).time .white = 1 ∧
    centiMTGOf lN2.movestogo ((1 : Int).tdiv oN.nodestime) = 0 := by
  with_unfolding_all decide

/-- C8 (confirmed): `centiMTG` equals `min(movesToGo × 100, 5000)` when
moves-to-go is specified and `5051` otherwise; whenever `scaledTime < 1000`
it is further reduced to at most `scaledTime × 5.051` (and never above its
base value). -/
theorem centiMTG_formula (m s : Int) (hs : 0 ≤ s) :
    (1000 ≤ s →
      centiMTGOf m s = (if m ≠ 0 then min (m * 100) 5000 else 5051)) ∧
    (s < 1000 →
      (centiMTGOf m s : ℚ) ≤ (s : ℚ) * (5051 / 1000) ∧
      centiMTGOf m s ≤ (if m ≠ 0 then min (m * 100) 5000 else 5051)) := by
  unfold centiMTGOf
  dsimp only
  constructor
  · intro h1000
    rw [if_neg (not_lt.mpr h1000)]
  · intro hlt
    rw [if_pos hlt]
    have h0 : (0 : ℚ) ≤ (s : ℚ) * (5051 / 1000) := by
      have : (0 : ℚ) ≤ (s : ℚ) := by exact_mod_cast hs
      positivity
    constructor
    · calc ((min (if m ≠ 0 then min (m * 100) 5000 else 5051)
            (dtrunc ((s : ℚ) * (5051 / 1000))) : Int) : ℚ)
          ≤ ((dtrunc ((s : ℚ) * (5051 / 1000)) : Int) : ℚ) := by
            exact_mod_cast min_le_right _ _
        _ ≤ (s : ℚ) * (5051 / 1000) := dtrunc_le h0
    · exact min_le_left _ _

/-- C8 witness: at `scaledTime = 500` (sudden death) the horizon is reduced
to `⌊500 × 5.051⌋ = 2525 ≤ 2525.5` and stays below the base 5051. -/
theorem centiMTG_formula_witness :
    (0 : Int) ≤ 500 ∧
    ((1000 ≤ (500 : Int) →
       centiMTGOf 0 500 = (if (0 : Int) ≠ 0 then min (0 * 100) 5000 else 5051)) ∧
     ((500 : Int) < 1000 →
       (centiMTGOf 0 500 : ℚ) ≤ ((500 : Int) : ℚ) * (5051 / 1000) ∧
       centiMTGOf 0 500 ≤ (if (0 : Int) ≠ 0 then min (0 * 100) 5000 else 5051))) :=
  ⟨by decide, centiMTG_formula 0 500 (by decide)⟩

/-- C9 (confirmed): when the node rate option is zero and remaining time is
nonzero, `init` returns the limits record unchanged (all fields, both sides)
and leaves `availableNodes` unchanged. -/
theorem init_frame_no_nodestime (ops : RealOps) (tm : TimeManagement)
    (limits : LimitsType) (us : Color) (ply : Int) (options : OptionsMap)
    (ota : ℚ) (h0 : options.nodestime = 0) (h : limits.time us ≠ 0) :
    (TimeManagement.init ops tm limits us ply options ota).2.1 = limits ∧
    (TimeManagement.init ops tm limits us ply options ota).1.availableNodes =
      tm.availableNodes := by
  simp [TimeManagement.init, if_neg h, h0, applyNodes_zero]

/-- C9 witness: the frame property at a concrete call (100ms left, node rate
0). -/
theorem init_frame_no_nodestime_witness :
    oC0.nodestime = 0 ∧ lC1.time .white ≠ 0 ∧
    ((TimeManagement.init sampleOps tm0 lC1 .white 0 oC0 1).2.1 = lC1 ∧
     (TimeManagement.init sampleOps tm0 lC1 .white 0 oC0 1).1.availableNodes =
       tm0.availableNodes) :=
  ⟨rfl, by decide,
   init_frame_no_nodestime sampleOps tm0 lC1 .white 0 oC0 1 rfl (by decide)⟩

/-- C10 (confirmed): `init` is deterministic — two runs on identical inputs
(object state, limits, side to move, ply, options, stored calibration, and
the same transcendental library) produce identical results: the same updated
object state (including `startTime`, `useNodesTime`, `availableNodes` and
both time bounds), the same mutated limits record and the same calibration
output. -/
theorem init_deterministic (ops : RealOps) (tm tm2 : TimeManagement)
    (l l2 : LimitsType) (us us2 : Color) (ply ply2 : Int)
    (o o2 : OptionsMap) (ota ota2 : ℚ) (h1 : tm = tm2) (h2 : l = l2)
    (h3 : us = us2) (h4 : ply = ply2) (h5 : o = o2) (h6 : ota = ota2) :
    TimeManagement.init ops tm l us ply o ota =
      TimeManagement.init ops tm2 l2 us2 ply2 o2 ota2 := by
  subst h1; subst h2; subst h3; subst h4; subst h5; subst h6; rfl

/-- C10 witness: determinism instantiated at a concrete input. -/
theorem init_deterministic_witness :
    TimeManagement.init sampleOps tm0 lC1 .white 0 oC1 1 =
      TimeManagement.init sampleOps tm0 lC1 .white 0 oC1 1 :=
  init_deterministic sampleOps tm0 tm0 lC1 lC1 .white .white 0 0 oC1 oC1 1 1
    rfl rfl rfl rfl rfl rfl

end Timeman
